import Mathlib

/-!
# Verification of the payroll payment orchestration (online-plan-pilot)

Shallow embedding of the payroll payment flow of the repository
(`src/components/Payroll.tsx`, `src/components/payroll/PayrollQuickGenerate.tsx`).
Monetary amounts, hours and rates are modelled as rationals (`ℚ`); the
free-form status and type columns are strings, exactly as the source keeps
them.  Database rows live in plain Lean structures, the remote store is a
record of lists, and each source routine becomes a pure function from store
to store.
-/

namespace PlanPilot

/-! ## Data model -/

/-- A row of the `bank_transactions` table, with exactly the columns the
payment flow writes (`Payroll.tsx` lines 195–205) and reads (lines 175–183). -/
structure BankTransaction where
  description : String
  amount : ℚ
  type : String
  category : String
  date : String
  profile_id : String
  bank_account_id : String
  deriving Repr, DecidableEq

/-- A row of the `bank_accounts` table, restricted to the columns the payment
flow reads (`opening_balance`, selected at `Payroll.tsx` line 168). -/
structure BankAccount where
  id : String
  opening_balance : ℚ
  deriving Repr, DecidableEq

/-- A row of the `payroll` table as used by `Payroll.tsx` (the joined
`profiles.full_name` is carried inline, as the component reads
`payroll.profiles?.full_name`). -/
structure Payroll where
  id : String
  profile_id : String
  profiles_full_name : String
  pay_period_start : String
  pay_period_end : String
  total_hours : ℚ
  hourly_rate : ℚ
  gross_pay : ℚ
  deductions : ℚ
  net_pay : ℚ
  status : String
  bank_account_id : Option String
  deriving Repr, DecidableEq

/-- A row of the `working_hours` table, restricted to the columns the payroll
aggregation reads.  `hourly_rate` is nullable in the source (the code guards
with `wh.hourly_rate || 0`), hence the `Option`. -/
structure WorkingHour where
  id : String
  profile_id : String
  date : String
  total_hours : ℚ
  hourly_rate : Option ℚ
  status : String
  deriving Repr, DecidableEq

/-- A row of the `notifications` table with the columns the payment flow
writes (`Payroll.tsx` lines 221–231).  The free-text `message` (a display
string interpolating the period and the amount) is not modelled. -/
structure Notification where
  title : String
  type : String
  recipient_profile_id : String
  related_id : String
  action_type : String
  priority : String
  deriving Repr, DecidableEq

/-- The remote store the component talks to through the query client. -/
structure Store where
  payrolls : List Payroll
  transactions : List BankTransaction
  notifications : List Notification
  accounts : List BankAccount
  deriving Repr, DecidableEq

/-! ## Balance Calculator (`Payroll.tsx` lines 182–183) -/

/-- The per-transaction contribution:
`t.type === 'deposit' ? t.amount : -t.amount`. -/
def transactionDelta (t : BankTransaction) : ℚ :=
  if t.type = "deposit" then t.amount else -t.amount

/-- `currentBalance` as computed at `Payroll.tsx` lines 182–183:
`opening_balance + transactions.reduce((sum, t) => sum + (t.type === 'deposit' ? t.amount : -t.amount), 0)`. -/
def currentBalance (opening : ℚ) (transactions : List BankTransaction) : ℚ :=
  opening + transactions.foldl (fun sum t => sum + transactionDelta t) 0

/-- The transactions of one account, as selected by
`.eq('bank_account_id', bankAccountId)` (`Payroll.tsx` line 178). -/
def accountTransactions (st : Store) (bankAccountId : String) : List BankTransaction :=
  st.transactions.filter (fun t => t.bank_account_id = bankAccountId)

/-- The balance the payment flow computes for an account (`GetBalance`). -/
def getBalance (st : Store) (acc : BankAccount) : ℚ :=
  currentBalance acc.opening_balance (accountTransactions st acc.id)

/-- Sum of the amounts of the `deposit` entries of a transaction list
(spec side, used to state the ledger-derived invariant). -/
def sumDeposits (ts : List BankTransaction) : ℚ :=
  ((ts.filter (fun t => t.type = "deposit")).map (·.amount)).sum

/-- Sum of the amounts of the `withdrawal` entries of a transaction list
(spec side, used to state the ledger-derived invariant). -/
def sumWithdrawals (ts : List BankTransaction) : ℚ :=
  ((ts.filter (fun t => t.type = "withdrawal")).map (·.amount)).sum

/-! ## Payment Orchestrator (`handleConfirmPayment`, `Payroll.tsx` lines 158–253)

The routine issues four independent network calls: read the account, read
its transactions, insert a withdrawal, update the payroll row, then insert a
notification whose own error is only logged.  There is no transaction
wrapper and no status check on the payroll record. -/

/-- Outcome of a `handleConfirmPayment` run. -/
inductive PayResult where
  /-- the success toast path -/
  | success
  /-- the `currentBalance < payroll.net_pay` early return -/
  | insufficientFunds
  /-- a thrown store error reached the `catch` block -/
  | storeError
  deriving Repr, DecidableEq

/-- The withdrawal row inserted at `Payroll.tsx` lines 195–205.  Note: the
row records the worker's `profile_id` and a display description, but no
reference to the payroll record's id. -/
def mkSalaryWithdrawal (payroll : Payroll) (bankAccountId today : String) :
    BankTransaction :=
  { description := "Salary payment for " ++ payroll.profiles_full_name ++ " (" ++
      payroll.pay_period_start ++ " - " ++ payroll.pay_period_end ++ ")"
    amount := payroll.net_pay
    type := "withdrawal"
    category := "salary"
    date := today
    profile_id := payroll.profile_id
    bank_account_id := bankAccountId }

/-- The notification row inserted at `Payroll.tsx` lines 221–231. -/
def mkPaymentNotification (payroll : Payroll) : Notification :=
  { title := "Salary Payment Processed"
    type := "salary_paid"
    recipient_profile_id := payroll.profile_id
    related_id := payroll.id
    action_type := "none"
    priority := "high" }

/-- `handleConfirmPayment` (`Payroll.tsx` lines 158–253).  `updateFails`
injects a `PersistenceFailure` at the payroll-status update (line 218's
`throw`): the source performs the withdrawal insert and the status update as
two separate awaited calls with no rollback in the `catch` block, so when the
update call fails the inserted transaction stays committed.  The notification
insert's error is only logged (line 233), so it never alters the outcome.

The payroll record's `status` is never read: the routine runs the same way
whatever state the record is in. -/
def handleConfirmPayment (st : Store) (payroll : Payroll)
    (bankAccountId today : String) (updateFails : Bool) : PayResult × Store :=
  match st.accounts.find? (fun a => a.id = bankAccountId) with
  | none => (PayResult.storeError, st)
  | some bankAccount =>
    let transactions := accountTransactions st bankAccountId
    let balance := currentBalance bankAccount.opening_balance transactions
    if balance < payroll.net_pay then
      (PayResult.insufficientFunds, st)
    else
      -- the withdrawal insert commits
      let st₁ : Store :=
        { st with transactions :=
            st.transactions ++ [mkSalaryWithdrawal payroll bankAccountId today] }
      if updateFails then
        -- `throw error` after the `payroll` update call: caught, no rollback
        (PayResult.storeError, st₁)
      else
        let st₂ : Store :=
          { st₁ with payrolls := st₁.payrolls.map (fun p =>
              if p.id = payroll.id then
                { p with status := "paid", bank_account_id := some bankAccountId }
              else p) }
        let st₃ : Store :=
          { st₂ with notifications :=
              st₂.notifications ++ [mkPaymentNotification payroll] }
        (PayResult.success, st₃)

/-! ## Payroll Record Lifecycle -/

/-- `updatePayrollStatus` (`Payroll.tsx` lines 255–276): an unconditional
`update({ status }).eq('id', id)`.  The TypeScript signature restricts the
argument to the literal `'approved'`, and no current-status check is made. -/
def updatePayrollStatus (payrolls : List Payroll) (id status : String) :
    List Payroll :=
  payrolls.map (fun p => if p.id = id then { p with status := status } else p)

/-- `calculatePayroll` (`Payroll.tsx` lines 278–282 and
`PayrollQuickGenerate.tsx` lines 46–50): `gross = hours * rate`,
`net = gross - deductions`; no input validation of any kind. -/
def calculatePayroll (hours rate deductions : ℚ) : ℚ × ℚ :=
  let gross := hours * rate
  let net := gross - deductions
  (gross, net)

/-- The `payroll` insert performed by `handleSubmit` (`Payroll.tsx` lines
284–299): the form data with the computed gross/net appended, status
`pending`.  `newId` stands for the row id the database generates. -/
def createPayroll (payrolls : List Payroll)
    (newId profileId fullName periodStart periodEnd : String)
    (hours rate deductions : ℚ) : List Payroll :=
  let p := calculatePayroll hours rate deductions
  payrolls ++ [{
    id := newId
    profile_id := profileId
    profiles_full_name := fullName
    pay_period_start := periodStart
    pay_period_end := periodEnd
    total_hours := hours
    hourly_rate := rate
    gross_pay := p.1
    deductions := deductions
    net_pay := p.2
    status := "pending"
    bank_account_id := none }]

/-! ## Working-Hours Aggregator (`Payroll.tsx` lines 369–390)

`fetchWorkingHours` (line 131) loads only entries with
`.eq('status', 'approved')`; the effect at lines 369–390 then filters by
profile and date range and computes the totals shown in the form. -/

/-- The `approved` pre-filter applied by `fetchWorkingHours`. -/
def approvedEntries (entries : List WorkingHour) : List WorkingHour :=
  entries.filter (fun wh => wh.status = "approved")

/-- The aggregation of `Payroll.tsx` lines 371–380 over the already
`approved`-filtered list: `totalHours` is the sum of `total_hours`;
`avgHourlyRate` is the plain arithmetic mean of the per-entry rates
(`Σ (wh.hourly_rate || 0) / length`), or 0 when the list is empty. -/
def aggregateHours (workingHours : List WorkingHour)
    (profileId startDate endDate : String) : ℚ × ℚ :=
  let profileWorkingHours := workingHours.filter (fun wh =>
    wh.profile_id = profileId ∧ startDate ≤ wh.date ∧ wh.date ≤ endDate)
  let totalHours := profileWorkingHours.foldl (fun sum wh => sum + wh.total_hours) 0
  let avgHourlyRate :=
    if profileWorkingHours.length > 0 then
      profileWorkingHours.foldl (fun sum wh => sum + (wh.hourly_rate.getD 0)) 0
        / (profileWorkingHours.length : ℚ)
    else 0
  (totalHours, avgHourlyRate)

/-- `AggregateApprovedHours` as exposed to the UI: the approved pre-filter
composed with the in-component aggregation. -/
def aggregateApprovedHours (entries : List WorkingHour)
    (profileId startDate endDate : String) : ℚ × ℚ :=
  aggregateHours (approvedEntries entries) profileId startDate endDate

/-- The hours-weighted mean `sum(hours × rate) / sum(hours)` the spec defines
(§4.1), stated from the spec's words for comparison with the source's
arithmetic mean. -/
def specWeightedAverageRate (eligible : List WorkingHour) : ℚ :=
  let hoursSum := (eligible.map (·.total_hours)).sum
  if hoursSum = 0 then 0
  else (eligible.map (fun wh => wh.total_hours * wh.hourly_rate.getD 0)).sum / hoursSum

/-! ## Concurrent `Pay` sessions

`handleConfirmPayment` is invoked from independent client sessions against
the same remote store.  Each invocation first performs only reads (fetch the
account and its transactions, lines 166–183) and then, if the check passes,
only writes (insert the withdrawal, update the payroll, insert the
notification, lines 194–231).  A session is therefore modelled with two
atomic phases — a read phase that captures the computed balance, and a write
phase that commits — and an execution is an arbitrary interleaving of the
phases of the sessions.  `machine_refines_sequential` below shows that a
session run without interruption coincides with `handleConfirmPayment`. -/

/-- The arguments of one `Pay` session. -/
structure PayCall where
  payroll : Payroll
  bankAccountId : String
  deriving Repr, DecidableEq

/-- The progress of one session. -/
inductive SessionPhase where
  /-- about to perform the reads of lines 166–183 -/
  | ready
  /-- reads done; the balance this session computed -/
  | checked (balance : ℚ)
  /-- returned -/
  | finished (r : PayResult)
  deriving Repr, DecidableEq

/-- The write half of `handleConfirmPayment` (lines 194–231): withdrawal
insert, payroll update, notification insert. -/
def payCommit (st : Store) (c : PayCall) (today : String) : Store :=
  let st₁ : Store :=
    { st with transactions :=
        st.transactions ++ [mkSalaryWithdrawal c.payroll c.bankAccountId today] }
  let st₂ : Store :=
    { st₁ with payrolls := st₁.payrolls.map (fun p =>
        if p.id = c.payroll.id then
          { p with status := "paid", bank_account_id := some c.bankAccountId }
        else p) }
  { st₂ with notifications := st₂.notifications ++ [mkPaymentNotification c.payroll] }

/-- A collection of in-flight sessions over one shared store. -/
structure ConcState where
  store : Store
  sessions : List (PayCall × SessionPhase)
  deriving Repr, DecidableEq

/-- One scheduler step: session `i` performs its next phase against the
current shared store. -/
def stepSession (today : String) (cs : ConcState) (i : Nat) : ConcState :=
  match cs.sessions[i]? with
  | none => cs
  | some (c, phase) =>
    match phase with
    | SessionPhase.ready =>
        match cs.store.accounts.find? (fun a => a.id = c.bankAccountId) with
        | none =>
            { cs with sessions :=
                cs.sessions.set i (c, SessionPhase.finished PayResult.storeError) }
        | some acc =>
            let b := currentBalance acc.opening_balance
              (accountTransactions cs.store c.bankAccountId)
            { cs with sessions := cs.sessions.set i (c, SessionPhase.checked b) }
    | SessionPhase.checked b =>
        if b < c.payroll.net_pay then
          { cs with sessions :=
              cs.sessions.set i (c, SessionPhase.finished PayResult.insufficientFunds) }
        else
          { store := payCommit cs.store c today
            sessions := cs.sessions.set i (c, SessionPhase.finished PayResult.success) }
    | SessionPhase.finished _ => cs

/-- Run a schedule: the list of session indices, in execution order. -/
def runSchedule (today : String) (cs : ConcState) : List Nat → ConcState
  | [] => cs
  | i :: rest => runSchedule today (stepSession today cs i) rest

/-! ## Concrete rows used by the witnesses and counterexamples -/

/-- A 50.00 deposit on account `acct-1`. -/
def wDeposit : BankTransaction :=
  { description := "client payment", amount := 50, type := "deposit",
    category := "income", date := "2025-01-05", profile_id := "prof-1",
    bank_account_id := "acct-1" }

/-- A 30.00 withdrawal on account `acct-1`. -/
def wWithdrawal : BankTransaction :=
  { description := "supplies", amount := 30, type := "withdrawal",
    category := "expense", date := "2025-01-06", profile_id := "prof-1",
    bank_account_id := "acct-1" }

/-- A 25.00 entry with the unrecognised type `transfer`. -/
def wTransfer : BankTransaction :=
  { description := "internal transfer in", amount := 25, type := "transfer",
    category := "transfer", date := "2025-01-07", profile_id := "prof-1",
    bank_account_id := "acct-1" }

/-- An approved payroll record for worker `prof-1`, net pay 600.00. -/
def pA : Payroll :=
  { id := "payroll-1", profile_id := "prof-1", profiles_full_name := "Alex Doe",
    pay_period_start := "2025-01-01", pay_period_end := "2025-01-31",
    total_hours := 60, hourly_rate := 10, gross_pay := 600, deductions := 0,
    net_pay := 600, status := "approved", bank_account_id := none }

/-- A second payroll record identical to `pA` except for its id. -/
def pB : Payroll := { pA with id := "payroll-2" }

/-- A paid payroll record (same shape as `pA`, status `paid`). -/
def pPaidRec : Payroll := { pA with id := "payroll-9", status := "paid" }

/-- The house account, opening balance 1000.00. -/
def wAcc : BankAccount := { id := "acct-1", opening_balance := 1000 }

/-- The house account with opening balance 2000.00. -/
def wAccRich : BankAccount := { id := "acct-1", opening_balance := 2000 }

/-- A store holding `pA` and the 1000.00 account, empty ledger. -/
def wStore : Store :=
  { payrolls := [pA], transactions := [], notifications := [], accounts := [wAcc] }

/-- A store holding `pA` and the 2000.00 account, empty ledger. -/
def wStoreRich : Store :=
  { payrolls := [pA], transactions := [], notifications := [], accounts := [wAccRich] }

/-- A store holding both `pA` and `pB` and the 1000.00 account. -/
def wStoreTwo : Store :=
  { payrolls := [pA, pB], transactions := [], notifications := [],
    accounts := [wAcc] }

/-- An account with opening balance 100.00 (Scenario B). -/
def wAccPoor : BankAccount := { id := "acct-2", opening_balance := 100 }

/-- A store holding `pA` and the 100.00 account, empty ledger. -/
def wStorePoor : Store :=
  { payrolls := [pA], transactions := [], notifications := [],
    accounts := [wAccPoor] }

/-- An approved 5h entry at 20.00/h (Scenario C). -/
def whFive : WorkingHour :=
  { id := "wh-1", profile_id := "prof-1", date := "2025-01-10",
    total_hours := 5, hourly_rate := some 20, status := "approved" }

/-- An approved 3h entry at 30.00/h (Scenario C). -/
def whThree : WorkingHour :=
  { id := "wh-2", profile_id := "prof-1", date := "2025-01-20",
    total_hours := 3, hourly_rate := some 30, status := "approved" }

/-- `pA` after being marked paid from account `acct-1`. -/
def pAPaid : Payroll := { pA with status := "paid", bank_account_id := some "acct-1" }

/-- `pB` after being marked paid from account `acct-1`. -/
def pBPaid : Payroll := { pB with status := "paid", bank_account_id := some "acct-1" }

/-- The store reached from `wStoreRich` by one successful payment of `pA`. -/
def wStoreRichPaid : Store :=
  { payrolls := [pAPaid]
    transactions := [mkSalaryWithdrawal pA "acct-1" "2025-02-01"]
    notifications := [mkPaymentNotification pA]
    accounts := [wAccRich] }

/-- The record `handleSubmit` persists for the invalid input
`hours = −1, rate = 10, deductions = 0` with the period end before its
start. -/
def pInvalid : Payroll :=
  { id := "payroll-7", profile_id := "prof-1", profiles_full_name := "Alex Doe",
    pay_period_start := "2025-02-28", pay_period_end := "2025-02-01",
    total_hours := -1, hourly_rate := 10, gross_pay := -10, deductions := 0,
    net_pay := -10, status := "pending", bank_account_id := none }

/-- The session paying `pA` from `acct-1`. -/
def callA : PayCall := ⟨pA, "acct-1"⟩

/-- The session paying `pB` from `acct-1`. -/
def callB : PayCall := ⟨pB, "acct-1"⟩

/-- Two concurrent sessions paying `pA` and `pB` (600.00 each) from the
1000.00 account, both still to run. -/
def cs₀ : ConcState :=
  { store := wStoreTwo,
    sessions := [(callA, SessionPhase.ready), (callB, SessionPhase.ready)] }

/-- The shared store after session A commits (interleaved run). -/
def wStoreAfterA : Store :=
  { payrolls := [pAPaid, pB]
    transactions := [mkSalaryWithdrawal pA "acct-1" "2025-02-01"]
    notifications := [mkPaymentNotification pA]
    accounts := [wAcc] }

/-- The shared store after both sessions commit (interleaved run). -/
def wStoreAfterAB : Store :=
  { payrolls := [pAPaid, pBPaid]
    transactions := [mkSalaryWithdrawal pA "acct-1" "2025-02-01",
                     mkSalaryWithdrawal pB "acct-1" "2025-02-01"]
    notifications := [mkPaymentNotification pA, mkPaymentNotification pB]
    accounts := [wAcc] }

/-! ## General lemmas about the balance computation -/

/-- A left fold accumulating `+ f t` equals the initial value plus the sum of
the mapped list. -/
theorem foldl_add_eq_sum {α : Type} (f : α → ℚ) :
    ∀ (ts : List α) (a : ℚ), ts.foldl (fun s t => s + f t) a = a + (ts.map f).sum := by
  intro ts
  induction ts with
  | nil => intro a; simp
  | cons t ts ih =>
      intro a
      simp only [List.foldl_cons, List.map_cons, List.sum_cons, ih]
      ring

/-- `currentBalance` is the opening balance plus the sum of the per-entry
deltas. -/
theorem currentBalance_eq_sum (opening : ℚ) (ts : List BankTransaction) :
    currentBalance opening ts = opening + (ts.map transactionDelta).sum := by
  simp [currentBalance, foldl_add_eq_sum]

/-- A single session scheduled without interruption behaves exactly as the
sequential `handleConfirmPayment` (with no failure injection): the two-phase
machine is a faithful splitting of the source routine. -/
theorem machine_refines_sequential (st : Store) (p : Payroll)
    (accId today : String) :
    runSchedule today ⟨st, [(⟨p, accId⟩, SessionPhase.ready)]⟩ [0, 0] =
      ⟨(handleConfirmPayment st p accId today false).2,
       [(⟨p, accId⟩, SessionPhase.finished (handleConfirmPayment st p accId today false).1)]⟩ := by
  cases hfind : st.accounts.find? (fun a => a.id = accId) with
  | none =>
      simp [runSchedule, stepSession, handleConfirmPayment, hfind]
  | some acc =>
      by_cases hbal :
          currentBalance acc.opening_balance (accountTransactions st accId) <
            p.net_pay
      · simp [runSchedule, stepSession, handleConfirmPayment, hfind, hbal]
      · simp [runSchedule, stepSession, handleConfirmPayment, payCommit, hfind, hbal]

/-! ## Claim C1 — the ledger-derived balance invariant -/

/-- The sum of the per-entry deltas splits into deposits minus withdrawals,
provided every entry's type is one of the two recognised tags. -/
theorem sum_delta_eq_deposits_sub_withdrawals :
    ∀ ts : List BankTransaction,
      (∀ t ∈ ts, t.type = "deposit" ∨ t.type = "withdrawal") →
      (ts.map transactionDelta).sum = sumDeposits ts - sumWithdrawals ts := by
  intro ts
  induction ts with
  | nil => intro _; simp [sumDeposits, sumWithdrawals]
  | cons t ts ih =>
      intro h
      have ht := h t (List.mem_cons_self t ts)
      have hrest := ih (fun t' ht' => h t' (List.mem_cons_of_mem t ht'))
      rcases ht with h1 | h1
      · simp [sumDeposits, sumWithdrawals, List.filter_cons, transactionDelta, h1, hrest]
        ring
      · simp [sumDeposits, sumWithdrawals, List.filter_cons, transactionDelta, h1, hrest]
        ring

/-- C1: for every bank account, the balance computed by the payment flow
(`currentBalance`, exposed as `GetBalance`) equals the account's opening
balance plus the sum of the deposit entries' amounts minus the sum of the
withdrawal entries' amounts, for every set of ledger entries (whose types
range over the two tags the data model admits). -/
theorem balance_invariant (opening : ℚ) (ts : List BankTransaction)
    (h : ∀ t ∈ ts, t.type = "deposit" ∨ t.type = "withdrawal") :
    currentBalance opening ts = opening + sumDeposits ts - sumWithdrawals ts := by
  rw [currentBalance_eq_sum, sum_delta_eq_deposits_sub_withdrawals ts h]
  ring

/-- Concrete run of `balance_invariant`: opening 100 with a 50 deposit and a
30 withdrawal. -/
theorem balance_invariant_witness :
    (∀ t ∈ [wDeposit, wWithdrawal], t.type = "deposit" ∨ t.type = "withdrawal") ∧
      currentBalance 100 [wDeposit, wWithdrawal] =
        100 + sumDeposits [wDeposit, wWithdrawal] - sumWithdrawals [wDeposit, wWithdrawal] :=
  ⟨by decide, balance_invariant 100 [wDeposit, wWithdrawal] (by decide)⟩

/-! ## Claim C10 — every non-deposit entry is subtracted -/

/-- Appending one entry shifts the balance by that entry's delta. -/
theorem currentBalance_append (opening : ℚ) (ts : List BankTransaction)
    (t : BankTransaction) :
    currentBalance opening (ts ++ [t]) =
      currentBalance opening ts + transactionDelta t := by
  simp [currentBalance_eq_sum]
  ring

/-- C10: in the balance computation of the payment flow, an entry whose type
is not `deposit` — not only one typed `withdrawal` — contributes the negation
of its amount, so adding any entry with an unrecognised type to a
transaction set decreases the computed balance by its amount. -/
theorem nondeposit_entry_subtracted (opening : ℚ) (ts : List BankTransaction)
    (t : BankTransaction) (h : t.type ≠ "deposit") :
    transactionDelta t = -t.amount ∧
    currentBalance opening (ts ++ [t]) = currentBalance opening ts - t.amount := by
  have hd : transactionDelta t = -t.amount := by simp [transactionDelta, h]
  refine ⟨hd, ?_⟩
  rw [currentBalance_append, hd]
  ring

/-- Concrete run of `nondeposit_entry_subtracted`: a 25.00 entry of type
`transfer` decreases the balance by 25.00. -/
theorem nondeposit_entry_subtracted_witness :
    wTransfer.type ≠ "deposit" ∧
    (transactionDelta wTransfer = -wTransfer.amount ∧
      currentBalance 100 ([wDeposit] ++ [wTransfer]) =
        currentBalance 100 [wDeposit] - wTransfer.amount) :=
  ⟨by decide, nondeposit_entry_subtracted 100 [wDeposit] wTransfer (by decide)⟩

/-! ## Claim C3 — insufficient funds aborts without mutation -/

/-- C3: whenever the computed balance of the selected account is strictly
below the payroll record's net pay, `handleConfirmPayment` returns the
insufficient-funds outcome and the store is returned untouched: no ledger
entry is appended and the payroll record (status and all other fields) is
unchanged.  This holds for either value of the failure-injection flag, since
the routine aborts before any write. -/
theorem insufficient_funds_aborts (st : Store) (payroll : Payroll)
    (bankAccountId today : String) (updateFails : Bool) (acc : BankAccount)
    (hacc : st.accounts.find? (fun a => a.id = bankAccountId) = some acc)
    (hlt : currentBalance acc.opening_balance (accountTransactions st bankAccountId) <
      payroll.net_pay) :
    handleConfirmPayment st payroll bankAccountId today updateFails =
      (PayResult.insufficientFunds, st) := by
  simp [handleConfirmPayment, hacc, hlt]

/-- Concrete run of `insufficient_funds_aborts` (Scenario B): balance 100.00
against net pay 600.00. -/
theorem insufficient_funds_aborts_witness :
    (wStorePoor.accounts.find? (fun a => a.id = "acct-2") = some wAccPoor) ∧
    (currentBalance wAccPoor.opening_balance (accountTransactions wStorePoor "acct-2") <
      pA.net_pay) ∧
    handleConfirmPayment wStorePoor pA "acct-2" "2025-02-01" false =
      (PayResult.insufficientFunds, wStorePoor) :=
  ⟨by decide,
   by
    simp [currentBalance, accountTransactions, wStorePoor, wAccPoor, pA]
    norm_num,
   insufficient_funds_aborts wStorePoor pA "acct-2" "2025-02-01" false wAccPoor
      (by decide)
      (by
        simp [currentBalance, accountTransactions, wStorePoor, wAccPoor, pA]
        norm_num)⟩

/-! ## Claim C2 — effects of a successful payment

The inserted `bank_transactions` row (`Payroll.tsx` lines 195–205) carries
the worker's `profile_id`, a display description and the account id — but no
reference to the payroll record's id, so the claimed "linked to the payroll
record" conjunct fails: the ledger cannot tell apart entries produced for
distinct payroll records of the same worker and period. -/

/-- C2 counterexample: `pA` and `pB` are distinct payroll records (different
ids, same worker, period and net pay), yet paying either from the same store
yields byte-identical ledgers — the appended withdrawal entry carries no
payroll-record reference, so it is not linked to the payroll record. -/
theorem pay_entry_not_linked :
    pA.id ≠ pB.id ∧
    mkSalaryWithdrawal pA "acct-1" "2025-02-01" =
      mkSalaryWithdrawal pB "acct-1" "2025-02-01" ∧
    (handleConfirmPayment wStoreTwo pA "acct-1" "2025-02-01" false).2.transactions =
      (handleConfirmPayment wStoreTwo pB "acct-1" "2025-02-01" false).2.transactions := by
  refine ⟨by decide, rfl, ?_⟩
  have hfind : wStoreTwo.accounts.find? (fun a => a.id = "acct-1") = some wAcc := by decide
  have h : ∀ q : Payroll,
      ¬ currentBalance wAcc.opening_balance (accountTransactions wStoreTwo "acct-1") <
        q.net_pay → (handleConfirmPayment wStoreTwo q "acct-1" "2025-02-01" false).2.transactions =
        wStoreTwo.transactions ++ [mkSalaryWithdrawal q "acct-1" "2025-02-01"] := by
    intro q hq
    simp [handleConfirmPayment, hfind, hq]
  rw [h pA (by simp [currentBalance, accountTransactions, wStoreTwo, wAcc, pA]; norm_num),
      h pB (by simp [currentBalance, accountTransactions, wStoreTwo, wAcc, pB, pA]; norm_num)]
  rfl

/-- C2 (amended): for every approved payroll record and account whose
computed balance is at least the record's net pay, `handleConfirmPayment`
succeeds and afterwards exactly one new withdrawal ledger entry exists with
amount equal to the net pay, category `salary` and dated now — recording the
worker's profile id and a description naming the pay period, but no
payroll-record reference; the payroll record's status is `paid` with the
paying account recorded; and the account's resulting balance equals the
prior balance minus the net pay. -/
theorem pay_success_effects (st : Store) (p : Payroll) (accId today : String)
    (acc : BankAccount)
    (hacc : st.accounts.find? (fun a => a.id = accId) = some acc)
    (_hstatus : p.status = "approved")
    (hp : p ∈ st.payrolls)
    (hbal : p.net_pay ≤ currentBalance acc.opening_balance (accountTransactions st accId)) :
    (handleConfirmPayment st p accId today false).1 = PayResult.success ∧
    (handleConfirmPayment st p accId today false).2.transactions =
      st.transactions ++ [mkSalaryWithdrawal p accId today] ∧
    (mkSalaryWithdrawal p accId today).amount = p.net_pay ∧
    (mkSalaryWithdrawal p accId today).type = "withdrawal" ∧
    (mkSalaryWithdrawal p accId today).category = "salary" ∧
    (mkSalaryWithdrawal p accId today).date = today ∧
    (mkSalaryWithdrawal p accId today).profile_id = p.profile_id ∧
    { p with status := "paid", bank_account_id := some accId } ∈
      (handleConfirmPayment st p accId today false).2.payrolls ∧
    currentBalance acc.opening_balance
        (accountTransactions (handleConfirmPayment st p accId today false).2 accId) =
      currentBalance acc.opening_balance (accountTransactions st accId) - p.net_pay := by
  have hnl : ¬ currentBalance acc.opening_balance (accountTransactions st accId) <
      p.net_pay := not_lt.mpr hbal
  have hrun : handleConfirmPayment st p accId today false =
      (PayResult.success,
        { payrolls := st.payrolls.map (fun q =>
            if q.id = p.id then { q with status := "paid", bank_account_id := some accId }
            else q)
          transactions := st.transactions ++ [mkSalaryWithdrawal p accId today]
          notifications := st.notifications ++ [mkPaymentNotification p]
          accounts := st.accounts }) := by
    simp [handleConfirmPayment, hacc, hnl]
  rw [hrun]
  refine ⟨rfl, rfl, rfl, rfl, rfl, rfl, rfl, ?_, ?_⟩
  · exact List.mem_map.mpr ⟨p, hp, by simp⟩
  · have hfil : accountTransactions
        ({ payrolls := st.payrolls.map (fun q =>
            if q.id = p.id then { q with status := "paid", bank_account_id := some accId }
            else q)
           transactions := st.transactions ++ [mkSalaryWithdrawal p accId today]
           notifications := st.notifications ++ [mkPaymentNotification p]
           accounts := st.accounts } : Store) accId =
        accountTransactions st accId ++ [mkSalaryWithdrawal p accId today] := by
      simp [accountTransactions, List.filter_append, mkSalaryWithdrawal]
    rw [hfil, currentBalance_append]
    simp [transactionDelta, mkSalaryWithdrawal]
    ring

/-- Concrete run of `pay_success_effects` (Scenario A): balance 1000.00,
net pay 600.00; the payment succeeds and the resulting balance is 400.00. -/
theorem pay_success_effects_witness :
    (wStore.accounts.find? (fun a => a.id = "acct-1") = some wAcc) ∧
    pA.status = "approved" ∧
    pA ∈ wStore.payrolls ∧
    pA.net_pay ≤ currentBalance wAcc.opening_balance (accountTransactions wStore "acct-1") ∧
    ((handleConfirmPayment wStore pA "acct-1" "2025-02-01" false).1 = PayResult.success ∧
     (handleConfirmPayment wStore pA "acct-1" "2025-02-01" false).2.transactions =
       wStore.transactions ++ [mkSalaryWithdrawal pA "acct-1" "2025-02-01"] ∧
     (mkSalaryWithdrawal pA "acct-1" "2025-02-01").amount = pA.net_pay ∧
     (mkSalaryWithdrawal pA "acct-1" "2025-02-01").type = "withdrawal" ∧
     (mkSalaryWithdrawal pA "acct-1" "2025-02-01").category = "salary" ∧
     (mkSalaryWithdrawal pA "acct-1" "2025-02-01").date = "2025-02-01" ∧
     (mkSalaryWithdrawal pA "acct-1" "2025-02-01").profile_id = pA.profile_id ∧
     { pA with status := "paid", bank_account_id := some "acct-1" } ∈
       (handleConfirmPayment wStore pA "acct-1" "2025-02-01" false).2.payrolls ∧
     currentBalance wAcc.opening_balance
         (accountTransactions (handleConfirmPayment wStore pA "acct-1" "2025-02-01" false).2 "acct-1") =
       currentBalance wAcc.opening_balance (accountTransactions wStore "acct-1") - pA.net_pay) :=
  ⟨by decide, rfl, by decide,
   by
    simp [currentBalance, accountTransactions, wStore, wAcc, pA]
    norm_num,
   pay_success_effects wStore pA "acct-1" "2025-02-01" wAcc (by decide) rfl (by decide)
     (by
      simp [currentBalance, accountTransactions, wStore, wAcc, pA]
      norm_num)⟩

/-! ## Shared run lemmas for `handleConfirmPayment` -/

/-- Closed form of a successful run (account found, balance sufficient, no
failure injection). -/
theorem pay_run_success (st : Store) (p : Payroll) (accId today : String)
    (acc : BankAccount)
    (hacc : st.accounts.find? (fun a => a.id = accId) = some acc)
    (hbal : ¬ currentBalance acc.opening_balance (accountTransactions st accId) <
      p.net_pay) :
    handleConfirmPayment st p accId today false =
      (PayResult.success,
        { payrolls := st.payrolls.map (fun q =>
            if q.id = p.id then { q with status := "paid", bank_account_id := some accId }
            else q)
          transactions := st.transactions ++ [mkSalaryWithdrawal p accId today]
          notifications := st.notifications ++ [mkPaymentNotification p]
          accounts := st.accounts }) := by
  simp [handleConfirmPayment, hacc, hbal]

/-- Closed form of a run whose payroll-status update call fails after the
withdrawal insert committed. -/
theorem pay_run_updateFails (st : Store) (p : Payroll) (accId today : String)
    (acc : BankAccount)
    (hacc : st.accounts.find? (fun a => a.id = accId) = some acc)
    (hbal : ¬ currentBalance acc.opening_balance (accountTransactions st accId) <
      p.net_pay) :
    handleConfirmPayment st p accId today true =
      (PayResult.storeError,
        { st with transactions :=
            st.transactions ++ [mkSalaryWithdrawal p accId today] }) := by
  simp [handleConfirmPayment, hacc, hbal]

/-! ## Claim C4 — a second `Pay` on a paid record -/

/-- C4: `handleConfirmPayment` never reads the payroll record's status, so
two successive calls on the same record against sufficient funds (opening
balance 2000.00, net pay 600.00) both succeed: the first marks the record
paid, and the second — running on the already-paid record — appends a second
withdrawal ledger entry instead of failing fast with an
invalid-state-transition error. -/
theorem double_pay_appends_second_entry :
    (handleConfirmPayment wStoreRich pA "acct-1" "2025-02-01" false).1 =
      PayResult.success ∧
    (handleConfirmPayment wStoreRich pA "acct-1" "2025-02-01" false).2.payrolls.map
      (·.status) = ["paid"] ∧
    (handleConfirmPayment
        (handleConfirmPayment wStoreRich pA "acct-1" "2025-02-01" false).2
        pA "acct-1" "2025-02-01" false).1 = PayResult.success ∧
    (handleConfirmPayment
        (handleConfirmPayment wStoreRich pA "acct-1" "2025-02-01" false).2
        pA "acct-1" "2025-02-01" false).2.transactions =
      [mkSalaryWithdrawal pA "acct-1" "2025-02-01",
       mkSalaryWithdrawal pA "acct-1" "2025-02-01"] := by
  have hfind1 : wStoreRich.accounts.find? (fun a => a.id = "acct-1") = some wAccRich := by
    decide
  have hnl1 : ¬ currentBalance wAccRich.opening_balance
      (accountTransactions wStoreRich "acct-1") < pA.net_pay := by
    simp [currentBalance, accountTransactions, wStoreRich, wAccRich, pA]
    norm_num
  have h1 := pay_run_success wStoreRich pA "acct-1" "2025-02-01" wAccRich hfind1 hnl1
  have hst1 : (handleConfirmPayment wStoreRich pA "acct-1" "2025-02-01" false).2 =
      wStoreRichPaid := by
    rw [h1]
    simp [wStoreRich, wStoreRichPaid, pAPaid]
  have hfind2 : wStoreRichPaid.accounts.find? (fun a => a.id = "acct-1") =
      some wAccRich := by decide
  have hnl2 : ¬ currentBalance wAccRich.opening_balance
      (accountTransactions wStoreRichPaid "acct-1") < pA.net_pay := by
    simp [currentBalance, accountTransactions, wStoreRichPaid, wAccRich, pA,
      mkSalaryWithdrawal, transactionDelta]
    norm_num
  have h2 := pay_run_success wStoreRichPaid pA "acct-1" "2025-02-01" wAccRich hfind2 hnl2
  refine ⟨by rw [h1], ?_, ?_, ?_⟩
  · rw [hst1]
    simp [wStoreRichPaid, pAPaid]
  · rw [hst1, h2]
  · rw [hst1, h2]
    simp [wStoreRichPaid]

/-! ## Claim C5 — atomicity of the ledger append and the status write -/

/-- C5: the ledger append and the paid-status write are two independent
store calls; when the status update fails after the withdrawal insert
committed (persistence failure between the two writes), the run leaves the
withdrawal entry visible while the payroll record is still `approved` —
exactly one of the two writes is committed, refuting the both-or-neither
requirement. -/
theorem status_write_failure_leaves_orphan_entry :
    (handleConfirmPayment wStore pA "acct-1" "2025-02-01" true).1 =
      PayResult.storeError ∧
    (handleConfirmPayment wStore pA "acct-1" "2025-02-01" true).2.transactions =
      [mkSalaryWithdrawal pA "acct-1" "2025-02-01"] ∧
    (handleConfirmPayment wStore pA "acct-1" "2025-02-01" true).2.payrolls = [pA] ∧
    pA.status = "approved" := by
  have hfind : wStore.accounts.find? (fun a => a.id = "acct-1") = some wAcc := by decide
  have hnl : ¬ currentBalance wAcc.opening_balance
      (accountTransactions wStore "acct-1") < pA.net_pay := by
    simp [currentBalance, accountTransactions, wStore, wAcc, pA]
    norm_num
  have h := pay_run_updateFails wStore pA "acct-1" "2025-02-01" wAcc hfind hnl
  rw [h]
  refine ⟨rfl, ?_, ?_, rfl⟩
  · simp [wStore]
  · simp [wStore]

/-! ## Claim C6 — the hours aggregation -/

/-- C6: over the eligible entries 5h @ 20.00 and 3h @ 30.00 (both approved
and in range), the aggregation returns total hours 8 as claimed, but its
average rate is the plain arithmetic mean of the rates,
(20 + 30) / 2 = 25 — not the hours-weighted mean
(5·20 + 3·30) / 8 = 95/4 = 23.75 the claim specifies (which
`specWeightedAverageRate`, stated from the spec, does produce). -/
theorem aggregation_mean_not_weighted :
    aggregateApprovedHours [whFive, whThree] "prof-1" "2025-01-01" "2025-01-31" =
      (8, 25) ∧
    specWeightedAverageRate [whFive, whThree] = 95 / 4 ∧
    (25 : ℚ) ≠ 95 / 4 := by
  have d1 : ("2025-01-01" : String) ≤ "2025-01-10" := by
    rw [String.le_iff_toList_le]; decide
  have d2 : ("2025-01-10" : String) ≤ "2025-01-31" := by
    rw [String.le_iff_toList_le]; decide
  have d3 : ("2025-01-01" : String) ≤ "2025-01-20" := by
    rw [String.le_iff_toList_le]; decide
  have d4 : ("2025-01-20" : String) ≤ "2025-01-31" := by
    rw [String.le_iff_toList_le]; decide
  refine ⟨?_, ?_, by norm_num⟩
  · simp +decide [aggregateApprovedHours, aggregateHours, approvedEntries, whFive,
      whThree, d1, d2, d3, d4, List.filter_cons, decide_eq_true_eq]
    norm_num
  · simp [specWeightedAverageRate, whFive, whThree]
    norm_num

/-! ## Claim C7 — payroll creation validation -/

/-- C7: `calculatePayroll` and the `handleSubmit` insert perform no
validation whatsoever: with hours = −1 (negative), rate = 10, deductions = 0
and a period whose start 2025-02-28 is after its end 2025-02-01, a record is
persisted with gross pay −10 and net pay −10 instead of failing with a
validation error; likewise deductions 100 exceeding the gross 50 produce net
pay −50. -/
theorem create_payroll_skips_validation :
    calculatePayroll (-1) 10 0 = (-10, -10) ∧
    calculatePayroll 5 10 100 = (50, -50) ∧
    createPayroll [] "payroll-7" "prof-1" "Alex Doe" "2025-02-28" "2025-02-01"
      (-1) 10 0 = [pInvalid] := by
  refine ⟨?_, ?_, ?_⟩
  · norm_num [calculatePayroll]
  · norm_num [calculatePayroll]
  · norm_num [createPayroll, calculatePayroll, pInvalid]

/-! ## Claim C8 — the status lifecycle -/

/-- C8: `updatePayrollStatus` performs an unconditional write with no check
of the record's current status: invoked on a record already `paid`, it
succeeds (no invalid-state-transition error exists in the routine) and moves
the record backward to `approved`, refuting the claim that approving a
non-pending record fails and leaves the record unchanged. -/
theorem approve_ignores_current_status :
    updatePayrollStatus [pPaidRec] "payroll-9" "approved" =
      [{ pPaidRec with status := "approved" }] ∧
    { pPaidRec with status := "approved" } ≠ pPaidRec := by
  refine ⟨?_, by decide⟩
  simp [updatePayrollStatus, pPaidRec, pA]

/-! ## Claim C9 — concurrent `Pay` calls against one account -/

/-- C9: two concurrent `Pay` sessions of 600.00 each against the 1000.00
account (combined net pay 1200.00 exceeds the balance) under the interleaved
schedule read-A, read-B, commit-A, commit-B: both sessions observe the same
sufficient balance of 1000.00, both succeed, and the final computed balance
is −200.00 — negative — refuting the claim that only the maximal affordable
prefix succeeds, that the rest fail with insufficient funds, and that the
balance is never negative. -/
theorem concurrent_pay_double_spends :
    (runSchedule "2025-02-01" cs₀ [0, 1, 0, 1]).sessions =
      [(callA, SessionPhase.finished PayResult.success),
       (callB, SessionPhase.finished PayResult.success)] ∧
    currentBalance wAcc.opening_balance
        (accountTransactions (runSchedule "2025-02-01" cs₀ [0, 1, 0, 1]).store
          "acct-1") = -200 ∧
    (-200 : ℚ) < 0 ∧
    wAcc.opening_balance < pA.net_pay + pB.net_pay := by
  have e1 : stepSession "2025-02-01" cs₀ 0 =
      { store := wStoreTwo,
        sessions := [(callA, SessionPhase.checked 1000),
                     (callB, SessionPhase.ready)] } := by
    simp [stepSession, cs₀, wStoreTwo, wAcc, callA, callB, currentBalance,
      accountTransactions]
  have e2 : stepSession "2025-02-01"
      ({ store := wStoreTwo,
         sessions := [(callA, SessionPhase.checked 1000),
                      (callB, SessionPhase.ready)] } : ConcState) 1 =
      { store := wStoreTwo,
        sessions := [(callA, SessionPhase.checked 1000),
                     (callB, SessionPhase.checked 1000)] } := by
    simp [stepSession, wStoreTwo, wAcc, callA, callB, currentBalance,
      accountTransactions]
  have e3 : stepSession "2025-02-01"
      ({ store := wStoreTwo,
         sessions := [(callA, SessionPhase.checked 1000),
                      (callB, SessionPhase.checked 1000)] } : ConcState) 0 =
      { store := wStoreAfterA,
        sessions := [(callA, SessionPhase.finished PayResult.success),
                     (callB, SessionPhase.checked 1000)] } := by
    have hlt : ¬ (1000 : ℚ) < callA.payroll.net_pay := by
      simp [callA, pA]
      norm_num
    simp [stepSession, hlt, payCommit, wStoreTwo, wStoreAfterA, callA, callB,
      pAPaid, pA, pB]
    norm_num
  have e4 : stepSession "2025-02-01"
      ({ store := wStoreAfterA,
         sessions := [(callA, SessionPhase.finished PayResult.success),
                      (callB, SessionPhase.checked 1000)] } : ConcState) 1 =
      { store := wStoreAfterAB,
        sessions := [(callA, SessionPhase.finished PayResult.success),
                     (callB, SessionPhase.finished PayResult.success)] } := by
    have hlt : ¬ (1000 : ℚ) < callB.payroll.net_pay := by
      simp [callB, pB, pA]
      norm_num
    simp [stepSession, hlt, payCommit, wStoreAfterA, wStoreAfterAB, callA, callB,
      pAPaid, pBPaid, pA, pB, mkSalaryWithdrawal, mkPaymentNotification]
    norm_num
  have hrun : runSchedule "2025-02-01" cs₀ [0, 1, 0, 1] =
      { store := wStoreAfterAB,
        sessions := [(callA, SessionPhase.finished PayResult.success),
                     (callB, SessionPhase.finished PayResult.success)] } := by
    simp only [runSchedule]
    rw [e1, e2, e3, e4]
  rw [hrun]
  refine ⟨rfl, ?_, by norm_num, ?_⟩
  · simp [currentBalance, accountTransactions, wStoreAfterAB, wAcc,
      mkSalaryWithdrawal, transactionDelta, pA, pB]
    norm_num
  · simp [wAcc, pA, pB]
    norm_num

end PlanPilot
